import Mathlib

/-!
Verification of the conflict_model / copro feature-matrix pipeline.

Shallow embedding of the repository's core functions:
  * `copro/data.py`: `initiate_XY_data`, `fill_XY_ref`, `split_XY_data`,
    `neighboring_polys`, `find_neighbors`, and the netCDF time-dtype dispatch;
  * `copro/machine_learning.py`: `define_scaling`, `define_model`,
    `split_scale_train_test_split`;
  * `copro/pipeline.py`: `create_XY`, `create_X`, `prepare_ML`;
  * `conflict_model/evaluation.py`: `get_average_hit`;
  * `scripts/runner.py`: the ordering of steps in `main`.

Column stores (Python dicts of pandas Series) are embedded as association
lists `List (String × List α)`; dataframes as lists of rows; external
collaborators (geometry `touches`, per-variable raster readers, the sklearn
scaler and splitter randomness) as explicit function parameters.
-/

/-- The value appended to column `key` of the sample store for simulation
year `y`, one entry per polygon.  This abstracts the per-key branches of
the loop body of `fill_XY_ref` in `copro/data.py` that can produce data:
`conflict.get_poly_ID` and `conflict.get_poly_geometry` (both reading
`polygon_gdf`, which is in scope) and the `variables.nc_with_*_timestamp`
raster readers — each computes a `data_list` with one value per polygon
of `polygon_gdf`.  The three conflict-lag branches are deliberately not
covered: they reference the undefined name `conflict_gdf` and can never
produce data (see `fillYear`). -/
def Provider (α : Type) : Type := String → Nat → List α

/-- One per-year step of `fill_XY_ref` (`copro/data.py`, the loop body
under `print('INFO: entering year ...')`), walking the store's keys in
insertion order.  The branches for the keys `conflict` (line 118),
`conflict_t_min_1` (line 125) and `conflict_t_min_1_nb` (line 132) pass
`conflict_gdf` to the conflict lookup, but no name `conflict_gdf` is
defined anywhere in `copro/data.py` (the parameter is `conflict_data`
and the module only imports the `conflict` module), so reaching any of
these keys raises `NameError` and the exception aborts assembly; every
other key appends the year's `data_list` to its accumulated series. -/
def fillYear (provider : Provider α) (XY : List (String × List α)) (sim_year : Nat) :
    Except String (List (String × List α)) :=
  match XY with
  | [] => Except.ok []
  | (k, col) :: rest =>
      if k = "conflict" ∨ k = "conflict_t_min_1" ∨ k = "conflict_t_min_1_nb" then
        Except.error "NameError: name conflict_gdf is not defined"
      else
        match fillYear provider rest sim_year with
        | Except.error e => Except.error e
        | Except.ok rest2 => Except.ok ((k, col ++ provider k sim_year) :: rest2)

/-- `np.arange(y_start, y_end + 1, 1)` of `fill_XY` (`copro/data.py`):
the simulation years, `y_start` through `y_end` inclusive. -/
def model_period (y_start y_end : Nat) : List Nat :=
  List.range' y_start (y_end + 1 - y_start)

/-- One iteration of the year loop of `fill_XY_ref`: the year with index
`i = 0` is skipped (`INFO: skipping first year ... to start up model`);
any later year runs the loop body `fillYear`; a raised error propagates
out of the loop unchanged. -/
def fillStep (provider : Provider α)
    (acc : Except String (List (String × List α))) (iy : Nat × Nat) :
    Except String (List (String × List α)) :=
  match acc with
  | Except.error e => Except.error e
  | Except.ok store =>
      if iy.1 = 0 then Except.ok store else fillYear provider store iy.2

/-- `fill_XY_ref` (`copro/data.py`): iterate
`zip(model_period, range(len(model_period)))` over the year loop.
`List.enum` pairs each year with its index (index first). -/
def fill_XY_ref (provider : Provider α) (XY : List (String × List α))
    (mp : List Nat) : Except String (List (String × List α)) :=
  mp.enum.foldl (fillStep provider) (Except.ok XY)

/-- `initiate_XY_data` (`copro/data.py`): the empty sample store, with a
`poly_ID` column, a `poly_geometry` column, one column per configured
variable of the `[data]` section, then `conflict_t_min_1`,
`conflict_t_min_1_nb` and the label column `conflict`. -/
def initiate_XY_data (dataKeys : List String) : List (String × List α) :=
  ("poly_ID", ([] : List α)) :: ("poly_geometry", []) ::
    (dataKeys.map (fun k => (k, []))
      ++ [("conflict_t_min_1", []), ("conflict_t_min_1_nb", []), ("conflict", [])])

theorem fillYear_conflict_key_error (provider : Provider α) (y : Nat)
    (XY : List (String × List α))
    (h : "conflict_t_min_1" ∈ XY.map Prod.fst) :
    fillYear provider XY y
      = Except.error "NameError: name conflict_gdf is not defined" := by
  induction XY with
  | nil => simp at h
  | cons kv rest ih =>
      obtain ⟨k, col⟩ := kv
      by_cases hk : k = "conflict" ∨ k = "conflict_t_min_1" ∨ k = "conflict_t_min_1_nb"
      · simp [fillYear, hk]
      · have hmem : "conflict_t_min_1" ∈ rest.map Prod.fst := by
          rw [List.map_cons] at h
          rcases List.mem_cons.1 h with h1 | h1
          · exact absurd (Or.inr (Or.inl h1.symm)) hk
          · exact h1
        simp [fillYear, hk, ih hmem]

theorem foldl_fillStep_error (provider : Provider α) (l : List (Nat × Nat))
    (e : String) :
    l.foldl (fillStep provider) (Except.error e) = Except.error e := by
  induction l with
  | nil => rfl
  | cons iy rest ih =>
      rw [List.foldl_cons,
        show fillStep provider (Except.error e) iy = Except.error e from rfl]
      exact ih

/-- C1 (code bug): the claim — like `fill_XY`'s own docstring, which
promises a filled array with one row per simulation year per polygon —
states that in reference mode every column of the sample store grows by
the polygon count for every year after the first, reaching length
`(y_end - y_start) * p` after the terminal year.  The code cannot do
this: the loop body of `fill_XY_ref` (`copro/data.py` lines 118, 125,
132) references the undefined name `conflict_gdf` (the parameter is
`conflict_data`; `fill_XY_proj` uses it correctly), so for every
configured range with `y_start < y_end` the first non-initial year
raises `NameError` at the `conflict_t_min_1` key and assembly aborts —
no column ever grows. -/
theorem fill_XY_ref_conflict_gdf_crash (provider : Provider α)
    (dataKeys : List String) (y_start y_end : Nat) (hy : y_start < y_end) :
    fill_XY_ref provider (initiate_XY_data dataKeys) (model_period y_start y_end)
      = Except.error "NameError: name conflict_gdf is not defined" := by
  have hn : y_end + 1 - y_start = (y_end - y_start - 1) + 1 + 1 := by omega
  have hmp : model_period y_start y_end
      = y_start :: (y_start + 1) ::
          List.range' (y_start + 2) (y_end - y_start - 1) := by
    unfold model_period
    rw [hn, List.range'_succ, List.range'_succ]
  rw [hmp]
  unfold fill_XY_ref
  have henum : (y_start :: (y_start + 1) ::
      List.range' (y_start + 2) (y_end - y_start - 1)).enum
      = (0, y_start) :: (1, y_start + 1) ::
        (List.range' (y_start + 2) (y_end - y_start - 1)).enumFrom 2 := rfl
  rw [henum, List.foldl_cons, List.foldl_cons,
    show fillStep provider
        (Except.ok (initiate_XY_data dataKeys : List (String × List α)))
        (0, y_start)
      = Except.ok (initiate_XY_data dataKeys) from rfl,
    show fillStep provider
        (Except.ok (initiate_XY_data dataKeys : List (String × List α)))
        (1, y_start + 1)
      = fillYear provider (initiate_XY_data dataKeys) (y_start + 1) from rfl,
    fillYear_conflict_key_error provider (y_start + 1) (initiate_XY_data dataKeys)
      (by simp [initiate_XY_data])]
  exact foldl_fillStep_error provider _ _

/-- Witness for C1: variable list `["rain"]`, years 2000 through 2002,
two polygons of data per key; assembly crashes with the `NameError` in
the first non-initial year. -/
theorem fill_XY_ref_conflict_gdf_crash_witness :
    fill_XY_ref (fun (_ : String) (y : Nat) => [y, y]) (initiate_XY_data ["rain"])
        (model_period 2000 2002)
      = Except.error "NameError: name conflict_gdf is not defined" :=
  fill_XY_ref_conflict_gdf_crash (fun _ y => [y, y]) ["rain"] 2000 2002 (by omega)

/-- The dtype of the `time` coordinate of an opened netCDF dataset
(`np.dtype(nc_ds.time)` in `copro/data.py`). -/
inductive TimeDtype where
  | float32 : TimeDtype
  | float64 : TimeDtype
  | datetime64ns : TimeDtype
  | otherDtype : String → TimeDtype
deriving DecidableEq

/-- The two supported per-variable extraction strategies
(`variables.nc_with_float_timestamp` and
`variables.nc_with_continous_datetime_timestamp`). -/
inductive ExtractionStrategy where
  | floatTimestamp : ExtractionStrategy
  | datetimeTimestamp : ExtractionStrategy
deriving DecidableEq

/-- The time-encoding dispatch of the variable branch of `fill_XY_ref` and
`fill_XY_proj` (`copro/data.py`): `float32`/`float64` time dtypes go to the
float-timestamp reader, `datetime64[ns]` to the datetime reader.  Any other
dtype reaches `raise Warning('WARNING: ...'.format(nc_fo))`; the name
`nc_fo` is not defined anywhere in `copro/data.py`, so evaluating the
format argument raises `NameError: name nc_fo is not defined` — a fatal
error whose message mentions neither the variable `key` nor the dtype. -/
def nc_time_dispatch (key : String) (dtype : TimeDtype) :
    Except String ExtractionStrategy :=
  match key, dtype with
  | _, TimeDtype.float32 => Except.ok ExtractionStrategy.floatTimestamp
  | _, TimeDtype.float64 => Except.ok ExtractionStrategy.floatTimestamp
  | _, TimeDtype.datetime64ns => Except.ok ExtractionStrategy.datetimeTimestamp
  | _, TimeDtype.otherDtype _ => Except.error "NameError: name nc_fo is not defined"

/-- C2 counterexample: the claim says the fatal error for an unrecognized
time encoding "reports the offending variable name".  For the variable
`"precipitation"` with time dtype `int64`, the dispatch of
`copro/data.py` fails fatally, but the resulting message (a `NameError`
about the undefined name `nc_fo` in the `raise Warning(...)` line) does
not contain the variable name. -/
theorem nc_time_dispatch_message_lacks_variable_name :
    nc_time_dispatch "precipitation" (TimeDtype.otherDtype "int64")
        = Except.error "NameError: name nc_fo is not defined" ∧
    ¬ ("precipitation".toList <:+:
        "NameError: name nc_fo is not defined".toList) := by
  constructor
  · rfl
  · decide

/-- C2 (amended): for every variable and every unrecognized time dtype,
the dispatch fails with a fatal error — the unrecognized encoding is never
coerced to either supported extraction strategy — but the error message
does not report the offending variable name (the `raise Warning` line
references the undefined name `nc_fo`, so a `NameError` escapes instead). -/
theorem nc_time_dispatch_other_fatal (key s : String) :
    nc_time_dispatch key (TimeDtype.otherDtype s)
        = Except.error "NameError: name nc_fo is not defined" ∧
    ∀ strat, nc_time_dispatch key (TimeDtype.otherDtype s) ≠ Except.ok strat := by
  exact ⟨rfl, fun strat h => by simp [nc_time_dispatch] at h⟩

/-- `neighboring_polys` (`copro/data.py`): for every polygon `i` of the
geo-dataframe, the row labelled with polygon `i`'s identifier holds, for
every polygon `j` of the dataframe (column label `j`'s identifier), the
boolean `extent_gdf.geometry.iloc[j].touches(wp_i)`.  The geo-dataframe is
a list of (identifier, geometry) pairs and the geometric `touches`
predicate is the external geometry collaborator. -/
def neighboring_polys (touches : γ → γ → Bool) (extent_gdf : List (Nat × γ)) :
    List (Nat × List (Nat × Bool)) :=
  extent_gdf.map (fun pr =>
    (pr.1, extent_gdf.map (fun q => (q.1, touches q.2 pr.2))))

/-- `find_neighbors` (`copro/data.py`): select the matrix row whose index
equals `watprovID` (`neighboring_matrix.loc[neighboring_matrix.index ==
watprovID]`), and return the identifiers of the columns holding `True`. -/
def find_neighbors (watprovID : Nat) (neighboring_matrix : List (Nat × List (Nat × Bool))) :
    List Nat :=
  match neighboring_matrix.find? (fun r => r.1 == watprovID) with
  | none => []
  | some r => (r.2.filter (fun c => c.2)).map (fun c => c.1)

theorem key_inj {l : List (Nat × γ)} (h : (l.map Prod.fst).Nodup)
    {a b : Nat × γ} (ha : a ∈ l) (hb : b ∈ l) (hk : a.1 = b.1) : a = b := by
  induction l with
  | nil => cases ha
  | cons x xs ih =>
      rw [List.map_cons, List.nodup_cons] at h
      rcases List.mem_cons.1 ha with ha1 | ha1 <;>
        rcases List.mem_cons.1 hb with hb1 | hb1
      · rw [ha1, hb1]
      · exfalso
        apply h.1
        have hm : b.1 ∈ xs.map Prod.fst := List.mem_map_of_mem Prod.fst hb1
        rwa [← hk, ha1] at hm
      · exfalso
        apply h.1
        have hm : a.1 ∈ xs.map Prod.fst := List.mem_map_of_mem Prod.fst ha1
        rwa [hk, hb1] at hm
      · exact ih h.2 ha1 hb1

theorem find_neighbors_mem_iff (touches : γ → γ → Bool)
    (extent_gdf : List (Nat × γ)) (hnd : (extent_gdf.map Prod.fst).Nodup)
    (A B : Nat) (gA gB : γ) (hA : (A, gA) ∈ extent_gdf) (hB : (B, gB) ∈ extent_gdf) :
    A ∈ find_neighbors B (neighboring_polys touches extent_gdf)
      ↔ touches gA gB = true := by
  have hfind : (neighboring_polys touches extent_gdf).find? (fun r => r.1 == B)
      = some (B, extent_gdf.map (fun q => (q.1, touches q.2 gB))) := by
    unfold neighboring_polys
    rw [List.find?_map]
    have hsome : (extent_gdf.find? (fun pr => pr.1 == B)).isSome := by
      rw [List.find?_isSome]
      exact ⟨(B, gB), hB, by simp⟩
    obtain ⟨q, hq⟩ := Option.isSome_iff_exists.1 hsome
    have hqmem : q ∈ extent_gdf := List.mem_of_find?_eq_some hq
    have hqB : q.1 = B := by
      have := List.find?_some hq
      simpa using this
    have hqeq : q = (B, gB) := key_inj hnd hqmem hB hqB
    show (extent_gdf.find? (fun pr => pr.1 == B)).map _ = _
    rw [hq, hqeq]
    rfl
  unfold find_neighbors
  rw [hfind]
  constructor
  · intro hmem
    obtain ⟨c, hcf, hc1⟩ := List.mem_map.1 hmem
    obtain ⟨hcm, hc2⟩ := List.mem_filter.1 hcf
    obtain ⟨q, hqgdf, hqc⟩ := List.mem_map.1 hcm
    have hq1 : q.1 = A := by rw [← hc1, ← hqc]
    have hqeq : q = (A, gA) := key_inj hnd hqgdf hA hq1
    have ht2 : touches q.2 gB = true := by rw [← hqc] at hc2; exact hc2
    rw [hqeq] at ht2
    exact ht2
  · intro ht
    refine List.mem_map.2 ⟨(A, touches gA gB), List.mem_filter.2 ⟨?_, ?_⟩, rfl⟩
    · exact List.mem_map_of_mem (fun q => (q.1, touches q.2 gB)) hA
    · exact ht

/-- C5: for any two polygons `(A, gA)` and `(B, gB)` of a fixed polygon
collection with distinct identifiers, the adjacency structure built by
`neighboring_polys` (`copro/data.py`) satisfies
`A ∈ find_neighbors(B) ↔ B ∈ find_neighbors(A)`, given that the geometric
`touches` predicate is symmetric — even though the builder computes and
stores both directions independently. -/
theorem find_neighbors_symm (touches : γ → γ → Bool)
    (hsym : ∀ a b, touches a b = touches b a)
    (extent_gdf : List (Nat × γ)) (hnd : (extent_gdf.map Prod.fst).Nodup)
    (A B : Nat) (gA gB : γ) (hA : (A, gA) ∈ extent_gdf) (hB : (B, gB) ∈ extent_gdf) :
    A ∈ find_neighbors B (neighboring_polys touches extent_gdf)
      ↔ B ∈ find_neighbors A (neighboring_polys touches extent_gdf) := by
  rw [find_neighbors_mem_iff touches extent_gdf hnd A B gA gB hA hB,
      find_neighbors_mem_iff touches extent_gdf hnd B A gB gA hB hA,
      hsym gA gB]

/-- Witness for C5: three polygons with geometries encoded as numbers 10,
11 and 20, where two geometries touch exactly when they differ by one
(so polygon 1 and polygon 2 touch, polygon 3 touches nobody). -/
theorem find_neighbors_symm_witness :
    (1 ∈ find_neighbors 2 (neighboring_polys
        (fun a b => a + 1 == b || b + 1 == a) [(1, 10), (2, 11), (3, 20)])
      ↔ 2 ∈ find_neighbors 1 (neighboring_polys
        (fun a b => a + 1 == b || b + 1 == a) [(1, 10), (2, 11), (3, 20)])) :=
  find_neighbors_symm (fun a b => a + 1 == b || b + 1 == a)
    (fun a b => Bool.or_comm (a + 1 == b) (b + 1 == a))
    [(1, 10), (2, 11), (3, 20)] (by decide) 1 2 10 11 (by decide) (by decide)

/-- Modelled from the spec: `conflict.split_conflict_geom_data` lives in
`copro/conflict.py`, which is not among the sources; spec §4.5 specifies
`split_columns(matrix) -> (ids, geometries, numeric_data)` where
`numeric_data` excludes the identifier and geometry columns and
`len(ids) == len(geometries) == len(numeric_data)` always.  A row of the
X-matrix is embedded as (identifier, geometry, numeric feature values). -/
def split_conflict_geom_data (X : List (ι × γ × List ν)) :
    List ι × List γ × List (List ν) :=
  (X.map (fun r => r.1), X.map (fun r => r.2.1), X.map (fun r => r.2.2))

/-- The rows of `l` selected by the boolean `mask` (kept where the mask
holds), used to model the random row partition drawn by
`sklearn.model_selection.train_test_split`. -/
def selectRows (mask : List Bool) (l : List ρ) : List ρ :=
  ((l.zip mask).filter (fun pr => pr.2)).map (fun pr => pr.1)

/-- `sklearn.model_selection.train_test_split(X_cs, Y, test_size=...)` as
called by `split_scale_train_test_split` (`copro/machine_learning.py`):
an external collaborator drawing one random partition per call; the
randomness is abstracted as the test-membership mask, and rows of `X` and
`Y` are partitioned by the same mask (same row indices go together). -/
def train_test_split (mask : List Bool) (X : List ρ) (Y : List β) :
    List ρ × List ρ × List β × List β :=
  (selectRows (mask.map (fun b => !b)) X, selectRows mask X,
   selectRows (mask.map (fun b => !b)) Y, selectRows mask Y)

/-- `np.column_stack((X_ID, X_geom, X_ft))` of
`split_scale_train_test_split`: recombine the identifier, geometry and
scaled numeric columns into rows. -/
def column_stack3 : List ι → List γ → List (List ν) → List (ι × γ × List ν)
  | a :: as, b :: bs, c :: cs => (a, b, c) :: column_stack3 as bs cs
  | _, _, _ => []

/-- The eight return values of `split_scale_train_test_split`
(`copro/machine_learning.py`). -/
structure SplitScaleResult (ι γ ν β : Type) where
  X_train : List (List ν)
  X_test : List (List ν)
  y_train : List β
  y_test : List β
  X_train_geom : List γ
  X_test_geom : List γ
  X_train_ID : List ι
  X_test_ID : List ι

/-- `split_scale_train_test_split` (`copro/machine_learning.py`): separate
identifier/geometry from numeric values, fit-transform only the numeric
values with the configured `scaler` (an external capability), recombine,
draw one random train/test partition of rows of `X` and `Y` together,
re-separate each partition, and raise an assertion-style error if the
test partition's identifier or geometry length does not match its
feature-row count. -/
def split_scale_train_test_split (scaler : List (List ν) → List (List ν))
    (mask : List Bool) (X : List (ι × γ × List ν)) (Y : List β) :
    Except String (SplitScaleResult ι γ ν β) :=
  let sp := split_conflict_geom_data X
  let X_ft := scaler sp.2.2
  let X_cs := column_stack3 sp.1 sp.2.1 X_ft
  let tts := train_test_split mask X_cs Y
  let sptr := split_conflict_geom_data tts.1
  let spte := split_conflict_geom_data tts.2.1
  if spte.1.length ≠ spte.2.2.length then
    Except.error "lenght X_test_ID does not match lenght X_test"
  else if spte.2.1.length ≠ spte.2.2.length then
    Except.error "lenght X_test_geom does not match lenght X_test"
  else
    Except.ok ⟨sptr.2.2, spte.2.2, tts.2.2.1, tts.2.2.2,
               sptr.2.1, spte.2.1, sptr.1, spte.1⟩

theorem selectRows_nil (mask : List Bool) : selectRows mask ([] : List ρ) = [] := by
  cases mask <;> rfl

theorem selectRows_nil_mask (l : List ρ) : selectRows [] l = [] := by
  cases l <;> rfl

theorem selectRows_cons (b : Bool) (bs : List Bool) (x : ρ) (xs : List ρ) :
    selectRows (b :: bs) (x :: xs)
      = if b then x :: selectRows bs xs else selectRows bs xs := by
  cases b <;> simp [selectRows]

theorem selectRows_map (f : ρ → σ) (mask : List Bool) (l : List ρ) :
    selectRows mask (l.map f) = (selectRows mask l).map f := by
  induction l generalizing mask with
  | nil => simp [selectRows_nil]
  | cons x xs ih =>
      cases mask with
      | nil => simp [selectRows_nil_mask]
      | cons b bs =>
          rw [List.map_cons, selectRows_cons, selectRows_cons]
          cases b
          · simpa using ih bs
          · simpa using ih bs

theorem selectRows_length_congr (mask : List Bool) (l : List ρ) (l' : List σ)
    (h : l.length = l'.length) :
    (selectRows mask l).length = (selectRows mask l').length := by
  induction mask generalizing l l' with
  | nil =>
      rw [selectRows_nil_mask, selectRows_nil_mask]
      rfl
  | cons b bs ih =>
      cases l with
      | nil =>
          cases l' with
          | nil => rfl
          | cons y ys => simp at h
      | cons x xs =>
          cases l' with
          | nil => simp at h
          | cons y ys =>
              rw [selectRows_cons, selectRows_cons]
              have h' : xs.length = ys.length := by simpa using h
              cases b
              · simpa using ih xs ys h'
              · simpa using ih xs ys h'

theorem column_stack3_spec (as : List ι) (bs : List γ) (cs : List (List ν))
    (h1 : as.length = bs.length) (h2 : bs.length = cs.length) :
    (column_stack3 as bs cs).map (fun r => r.1) = as ∧
    (column_stack3 as bs cs).map (fun r => r.2.1) = bs ∧
    (column_stack3 as bs cs).map (fun r => r.2.2) = cs ∧
    (column_stack3 as bs cs).length = as.length := by
  induction as generalizing bs cs with
  | nil =>
      cases bs with
      | nil =>
          cases cs with
          | nil => simp [column_stack3]
          | cons c cs => simp at h2
      | cons b bs => simp at h1
  | cons a as ih =>
      cases bs with
      | nil => simp at h1
      | cons b bs =>
          cases cs with
          | nil => simp at h2
          | cons c cs =>
              have ih' := ih bs cs (by simpa using h1) (by simpa using h2)
              simp only [column_stack3, List.map_cons, List.length_cons]
              exact ⟨by rw [ih'.1], by rw [ih'.2.1], by rw [ih'.2.2.1],
                     by rw [ih'.2.2.2]⟩

/-- The recombined matrix `X_cs` of `split_scale_train_test_split`:
identifier and geometry columns stacked with the scaled numeric values. -/
def X_cs_of (scaler : List (List ν) → List (List ν)) (X : List (ι × γ × List ν)) :
    List (ι × γ × List ν) :=
  column_stack3 (X.map (fun r => r.1)) (X.map (fun r => r.2.1))
    (scaler (X.map (fun r => r.2.2)))

theorem split_scale_eq_ok (scaler : List (List ν) → List (List ν))
    (mask : List Bool) (X : List (ι × γ × List ν)) (Y : List β) :
    split_scale_train_test_split scaler mask X Y
      = Except.ok
          ⟨(selectRows (mask.map (fun b => !b)) (X_cs_of scaler X)).map (fun r => r.2.2),
           (selectRows mask (X_cs_of scaler X)).map (fun r => r.2.2),
           selectRows (mask.map (fun b => !b)) Y,
           selectRows mask Y,
           (selectRows (mask.map (fun b => !b)) (X_cs_of scaler X)).map (fun r => r.2.1),
           (selectRows mask (X_cs_of scaler X)).map (fun r => r.2.1),
           (selectRows (mask.map (fun b => !b)) (X_cs_of scaler X)).map (fun r => r.1),
           (selectRows mask (X_cs_of scaler X)).map (fun r => r.1)⟩ := by
  simp [split_scale_train_test_split, split_conflict_geom_data, train_test_split, X_cs_of]

/-- C3: every train/test split produced by `split_scale_train_test_split`
(`copro/machine_learning.py`) returns (rather than raising the
assertion-style errors of its final checks), and both the train and the
test partition satisfy
`len(ids) = len(geometries) = len(numeric feature rows) = len(labels)`;
the if-guards of the embedded function raise the assertion-style error
whenever the test partition's identifier or geometry length differs from
its feature-row count. -/
theorem split_scale_train_test_split_alignment
    (scaler : List (List ν) → List (List ν)) (mask : List Bool)
    (X : List (ι × γ × List ν)) (Y : List β)
    (hscaler : ∀ d, (scaler d).length = d.length)
    (hY : Y.length = X.length) :
    ∃ r : SplitScaleResult ι γ ν β,
      split_scale_train_test_split scaler mask X Y = Except.ok r ∧
      r.X_test_ID.length = r.X_test.length ∧
      r.X_test_geom.length = r.X_test.length ∧
      r.y_test.length = r.X_test.length ∧
      r.X_train_ID.length = r.X_train.length ∧
      r.X_train_geom.length = r.X_train.length ∧
      r.y_train.length = r.X_train.length := by
  have hcs : (X_cs_of scaler X).length = X.length := by
    have h := column_stack3_spec (X.map (fun r => r.1)) (X.map (fun r => r.2.1))
      (scaler (X.map (fun r => r.2.2))) (by simp) (by simp [hscaler])
    simpa [X_cs_of] using h.2.2.2
  have hYcs : Y.length = (X_cs_of scaler X).length := by rw [hcs, hY]
  refine ⟨_, split_scale_eq_ok scaler mask X Y, ?_, ?_, ?_, ?_, ?_, ?_⟩
  · simp
  · simp
  · dsimp only
    simp only [List.length_map]
    exact selectRows_length_congr mask Y (X_cs_of scaler X) hYcs
  · simp
  · simp
  · dsimp only
    simp only [List.length_map]
    exact selectRows_length_congr (mask.map (fun b => !b)) Y (X_cs_of scaler X) hYcs

/-- Witness for C3: three rows with ids 1, 2, 3, geometries 10, 20, 30,
two numeric features each, labels `[0, 1, 0]`, a doubling scaler, and a
mask putting rows 1 and 3 in the test partition. -/
theorem split_scale_train_test_split_alignment_witness :
    ∃ r : SplitScaleResult Nat Nat Nat Nat,
      split_scale_train_test_split (fun d => d.map (fun row => row.map (fun v => v * 2)))
          [true, false, true]
          [(1, 10, [5, 6]), (2, 20, [7, 8]), (3, 30, [9, 10])]
          [0, 1, 0] = Except.ok r ∧
      r.X_test_ID.length = r.X_test.length ∧
      r.X_test_geom.length = r.X_test.length ∧
      r.y_test.length = r.X_test.length ∧
      r.X_train_ID.length = r.X_train.length ∧
      r.X_train_geom.length = r.X_train.length ∧
      r.y_train.length = r.X_train.length := by
  apply split_scale_train_test_split_alignment
  · intro d
    simp
  · rfl

/-- C8: the fitted scaling transform of `split_scale_train_test_split`
(`copro/machine_learning.py`) is applied only to the numeric feature
columns: the identifier and geometry values carried into the returned
train and test partitions are exactly the identifier and geometry values
of the corresponding input rows. -/
theorem split_scale_train_test_split_id_geom_carried
    (scaler : List (List ν) → List (List ν)) (mask : List Bool)
    (X : List (ι × γ × List ν)) (Y : List β)
    (hscaler : ∀ d, (scaler d).length = d.length) :
    ∃ r : SplitScaleResult ι γ ν β,
      split_scale_train_test_split scaler mask X Y = Except.ok r ∧
      r.X_train_ID = (selectRows (mask.map (fun b => !b)) X).map (fun row => row.1) ∧
      r.X_test_ID = (selectRows mask X).map (fun row => row.1) ∧
      r.X_train_geom = (selectRows (mask.map (fun b => !b)) X).map (fun row => row.2.1) ∧
      r.X_test_geom = (selectRows mask X).map (fun row => row.2.1) := by
  have hspec := column_stack3_spec (X.map (fun r => r.1)) (X.map (fun r => r.2.1))
    (scaler (X.map (fun r => r.2.2))) (by simp) (by simp [hscaler])
  have hfst : (X_cs_of scaler X).map (fun r => r.1) = X.map (fun r => r.1) := by
    simpa [X_cs_of] using hspec.1
  have hgeom : (X_cs_of scaler X).map (fun r => r.2.1) = X.map (fun r => r.2.1) := by
    simpa [X_cs_of] using hspec.2.1
  refine ⟨_, split_scale_eq_ok scaler mask X Y, ?_, ?_, ?_, ?_⟩
  · dsimp only
    rw [← selectRows_map, hfst, selectRows_map]
  · dsimp only
    rw [← selectRows_map, hfst, selectRows_map]
  · dsimp only
    rw [← selectRows_map, hgeom, selectRows_map]
  · dsimp only
    rw [← selectRows_map, hgeom, selectRows_map]

/-- Witness for C8: same concrete rows as the C3 witness; the returned
test ids are `[1, 3]` and geometries `[10, 30]`, untouched by the
doubling scaler. -/
theorem split_scale_train_test_split_id_geom_carried_witness :
    ∃ r : SplitScaleResult Nat Nat Nat Nat,
      split_scale_train_test_split (fun d => d.map (fun row => row.map (fun v => v * 3)))
          [true, false, true]
          [(1, 10, [5, 6]), (2, 20, [7, 8]), (3, 30, [9, 10])]
          [0, 1, 0] = Except.ok r ∧
      r.X_train_ID = (selectRows ([true, false, true].map (fun b => !b))
          [(1, 10, [5, 6]), (2, 20, [7, 8]), (3, 30, [9, 10])]).map (fun row => row.1) ∧
      r.X_test_ID = (selectRows [true, false, true]
          [(1, 10, [5, 6]), (2, 20, [7, 8]), (3, 30, [9, 10])]).map (fun row => row.1) ∧
      r.X_train_geom = (selectRows ([true, false, true].map (fun b => !b))
          [(1, 10, [5, 6]), (2, 20, [7, 8]), (3, 30, [9, 10])]).map (fun row => row.2.1) ∧
      r.X_test_geom = (selectRows [true, false, true]
          [(1, 10, [5, 6]), (2, 20, [7, 8]), (3, 30, [9, 10])]).map (fun row => row.2.1) := by
  apply split_scale_train_test_split_id_geom_carried
  intro d
  simp

/-- `split_XY_data` (`copro/data.py`): the assembled sample matrix, a list
of rows whose cells are `Option V` (`none` is a missing value, `NaN` in
the numpy array).  `XY.dropna()` keeps exactly the rows with no missing
cell; then `X = XY[:, :-1]` takes every column but the last of each kept
row and `Y = XY[:, -1].astype(int)` casts the last column to integers via
the external cast `toInt`. -/
def split_XY_data (toInt : V → Int) (XY : List (List (Option V))) :
    List (List (Option V)) × List Int :=
  let cleaned := XY.filter (fun row => row.all (fun c => c.isSome))
  (cleaned.map (fun row => row.dropLast),
   cleaned.map (fun row =>
     match row.getLast? with
     | some (some v) => toInt v
     | _ => 0))

/-- C6: `split_XY_data` (`copro/data.py`) first drops, in their entirety,
all rows containing any missing value in any column; `X` is then all
columns but the last of each surviving row, `Y` is exactly the last
column (the conflict label) cast to integer, and no cell of a partially
missing row — indeed no missing cell at all — survives into `X`. -/
theorem split_XY_data_spec (toInt : V → Int) (XY : List (List (Option V)))
    (hne : ∀ row ∈ XY, row ≠ []) :
    (split_XY_data toInt XY).1
        = (XY.filter (fun row => row.all (fun c => c.isSome))).map
            (fun row => row.dropLast) ∧
    List.Forall₂ (fun (row : List (Option V)) (y : Int) =>
        ∃ v, row.getLast? = some (some v) ∧ y = toInt v)
      (XY.filter (fun row => row.all (fun c => c.isSome)))
      (split_XY_data toInt XY).2 ∧
    ∀ x ∈ (split_XY_data toInt XY).1, ∀ c ∈ x, c.isSome = true := by
  refine ⟨rfl, ?_, ?_⟩
  · rw [show (split_XY_data toInt XY).2
        = (XY.filter (fun row => row.all (fun c => c.isSome))).map
            (fun row =>
              match row.getLast? with
              | some (some v) => toInt v
              | _ => 0) from rfl]
    rw [List.forall₂_map_right_iff]
    apply List.forall₂_same.2
    intro row hrow
    have hmem : row ∈ XY := (List.mem_filter.1 hrow).1
    have hall : row.all (fun c => c.isSome) = true := (List.mem_filter.1 hrow).2
    obtain ⟨c, hc⟩ := List.getLast?_isSome.2 (hne row hmem) |> Option.isSome_iff_exists.1
    have hcmem : c ∈ row := List.mem_of_getLast?_eq_some hc
    have hcs : c.isSome = true := by
      have := List.all_eq_true.1 hall c hcmem
      simpa using this
    obtain ⟨v, hv⟩ := Option.isSome_iff_exists.1 hcs
    refine ⟨v, ?_, ?_⟩
    · rw [hc, hv]
    · rw [hc, hv]
  · intro x hx c hc
    obtain ⟨row, hrow, hxr⟩ := List.mem_map.1 hx
    have hall : row.all (fun c => c.isSome) = true := (List.mem_filter.1 hrow).2
    have hcrow : c ∈ row := by
      rw [← hxr] at hc
      exact List.dropLast_subset row hc
    have := List.all_eq_true.1 hall c hcrow
    simpa using this

/-- Witness for C6: a three-row matrix whose middle row has a missing
value in its first column; the middle row survives into neither `X` nor
`Y`. -/
theorem split_XY_data_spec_witness :
    (split_XY_data (fun v : Int => v)
          [[some 1, some 2], [none, some 3], [some 4, some 5]]).1
        = (([[some 1, some 2], [none, some 3], [some 4, some 5]] :
              List (List (Option Int))).filter
            (fun row => row.all (fun c => c.isSome))).map (fun row => row.dropLast) ∧
    List.Forall₂ (fun (row : List (Option Int)) (y : Int) =>
        ∃ v, row.getLast? = some (some v) ∧ y = (fun v : Int => v) v)
      (([[some 1, some 2], [none, some 3], [some 4, some 5]] :
          List (List (Option Int))).filter (fun row => row.all (fun c => c.isSome)))
      (split_XY_data (fun v : Int => v)
          [[some 1, some 2], [none, some 3], [some 4, some 5]]).2 ∧
    ∀ x ∈ (split_XY_data (fun v : Int => v)
          [[some 1, some 2], [none, some 3], [some 4, some 5]]).1,
        ∀ c ∈ x, c.isSome = true :=
  split_XY_data_spec (fun v : Int => v)
    [[some 1, some 2], [none, some 3], [some 4, some 5]]
    (by decide)

/-- `df.ID.value_counts()` restricted to one identifier: the number of
test-row records carrying identifier `id` (its appearance count across
all runs).  A record of the accumulated `out_y_df` is embedded as
(polygon identifier, overall_hit), where `overall_hit` is whether the
prediction matched the label. -/
def ID_count (df : List (Nat × Bool)) (id : Nat) : Nat :=
  (df.filter (fun r => r.1 == id)).length

/-- `df.overall_hit.groupby(df.ID).sum()` restricted to one identifier:
the number of correct predictions ("hits") among the records carrying
identifier `id`. -/
def total_hits (df : List (Nat × Bool)) (id : Nat) : Nat :=
  (df.filter (fun r => r.1 == id && r.2)).length

/-- `get_average_hit` (`conflict_model/evaluation.py`): for each distinct
identifier appearing in the test-row records, the appearance count, the
total hits, `average_hit = total_hits / ID_count`, and (via the
`how='left'` merge with `global_df`, which keeps exactly the aggregated
rows) the looked-up global data for that identifier. -/
def get_average_hit (global_df : Nat → Option γ) (df : List (Nat × Bool)) :
    List (Nat × Nat × Nat × ℚ × Option γ) :=
  ((df.map (fun r => r.1)).dedup).map
    (fun id => (id, ID_count df id, total_hits df id,
      (total_hits df id : ℚ) / (ID_count df id : ℚ), global_df id))

/-- C7: `get_average_hit` (`conflict_model/evaluation.py`) reports, for
exactly the polygon identifiers with at least one test-set appearance
across all runs (zero-appearance polygons are absent, not reported as
zero), the appearance count, the total hits, and
`average_hit = total_hits / appearance count` with a positive appearance
count; in particular a polygon appearing twice with one correct and one
incorrect prediction gets `average_hit = 1/2`. -/
theorem get_average_hit_spec (global_df : Nat → Option γ) (df : List (Nat × Bool)) :
    (∀ id : Nat, id ∈ (get_average_hit global_df df).map (fun e => e.1)
        ↔ id ∈ df.map (fun r => r.1)) ∧
    (∀ e ∈ get_average_hit global_df df,
        e.2.1 = ID_count df e.1 ∧
        e.2.2.1 = total_hits df e.1 ∧
        e.2.2.2.1 = (total_hits df e.1 : ℚ) / (ID_count df e.1 : ℚ) ∧
        e.2.2.2.2 = global_df e.1 ∧
        0 < ID_count df e.1) ∧
    get_average_hit (fun _ => (none : Option γ)) [(1, true), (1, false)]
      = [(1, 2, 1, (1 : ℚ) / 2, none)] := by
  refine ⟨?_, ?_, ?_⟩
  · intro id
    constructor
    · intro h
      obtain ⟨e, he, he1⟩ := List.mem_map.1 h
      obtain ⟨j, hj, hje⟩ := List.mem_map.1 he
      rw [← he1, ← hje]
      simpa using List.mem_dedup.1 hj
    · intro h
      apply List.mem_map.2
      refine ⟨(id, ID_count df id, total_hits df id,
        (total_hits df id : ℚ) / (ID_count df id : ℚ), global_df id), ?_, rfl⟩
      apply List.mem_map.2
      exact ⟨id, List.mem_dedup.2 h, rfl⟩
  · intro e he
    obtain ⟨j, hj, hje⟩ := List.mem_map.1 he
    have hjid : j ∈ df.map (fun r => r.1) := List.mem_dedup.1 hj
    obtain ⟨r, hr, hrj⟩ := List.mem_map.1 hjid
    subst hje
    refine ⟨rfl, rfl, rfl, rfl, ?_⟩
    have : r ∈ df.filter (fun r' => r'.1 == j) := by
      rw [List.mem_filter]
      exact ⟨hr, by simp [hrj]⟩
    have hpos : 0 < (df.filter (fun r' => r'.1 == j)).length :=
      List.length_pos.2 (List.ne_nil_of_mem this)
    simpa [ID_count] using hpos
  · rfl

/-- The scaling algorithms supported by `define_scaling`
(`copro/machine_learning.py`). -/
inductive ScalerKind where
  | minMaxScaler : ScalerKind
  | standardScaler : ScalerKind
  | robustScaler : ScalerKind
  | quantileTransformer : ScalerKind
deriving DecidableEq

/-- The classifiers supported by `define_model`
(`copro/machine_learning.py`). -/
inductive ModelKind where
  | nuSVC : ModelKind
  | kNeighborsClassifier : ModelKind
  | rfClassifier : ModelKind
deriving DecidableEq

/-- The configuration values consulted by the scaler/model factories and
the run loop: `[machine_learning] scaler`, `[machine_learning] model`,
`[settings] n_runs`. -/
structure MLConfig where
  scaler : String
  model : String
  n_runs : Nat

/-- `define_scaling` (`copro/machine_learning.py`): string-equality chain
over the configured scaler name; any other name raises `ValueError`. -/
def define_scaling (config : MLConfig) : Except String ScalerKind :=
  if config.scaler = "MinMaxScaler" then Except.ok ScalerKind.minMaxScaler
  else if config.scaler = "StandardScaler" then Except.ok ScalerKind.standardScaler
  else if config.scaler = "RobustScaler" then Except.ok ScalerKind.robustScaler
  else if config.scaler = "QuantileTransformer" then
    Except.ok ScalerKind.quantileTransformer
  else
    Except.error "no supported scaling-algorithm selected - choose between MinMaxScaler, StandardScaler, RobustScaler or QuantileTransformer"

/-- `define_model` (`copro/machine_learning.py`): string-equality chain
over the configured model name; any other name raises `ValueError`. -/
def define_model (config : MLConfig) : Except String ModelKind :=
  if config.model = "NuSVC" then Except.ok ModelKind.nuSVC
  else if config.model = "KNeighborsClassifier" then
    Except.ok ModelKind.kNeighborsClassifier
  else if config.model = "RFClassifier" then Except.ok ModelKind.rfClassifier
  else
    Except.error "no supported ML model selected - choose between NuSVC, KNeighborsClassifier or RFClassifier"

/-- `prepare_ML` (`copro/pipeline.py`): instantiate the scaler, then the
classifier. -/
def prepare_ML (config : MLConfig) : Except String (ScalerKind × ModelKind) :=
  match define_scaling config with
  | Except.error e => Except.error e
  | Except.ok s =>
      match define_model config with
      | Except.error e => Except.error e
      | Except.ok m => Except.ok (s, m)

/-- The observable steps of `main` in `scripts/runner.py`, in program
order. -/
inductive RunnerEvent where
  | selectData : RunnerEvent
  | createXY : RunnerEvent
  | prepareML : RunnerEvent
  | runExec : Nat → RunnerEvent
deriving DecidableEq

/-- The step sequence of `main` (`scripts/runner.py`): `selection.select`
reads the conflict and polygon files, `pipeline.create_XY` reads every
variable file and assembles (or loads) the sample matrix, and only then
is `pipeline.prepare_ML` called; if it raises, the run aborts there,
otherwise the `n_runs` evaluation loop executes.  Returns the trace of
executed steps and the fatal error, if any. -/
def runner_main (config : MLConfig) : List RunnerEvent × Option String :=
  let dataSteps := [RunnerEvent.selectData, RunnerEvent.createXY]
  match prepare_ML config with
  | Except.error e => (dataSteps, some e)
  | Except.ok _ =>
      (dataSteps ++ [RunnerEvent.prepareML]
        ++ (List.range config.n_runs).map RunnerEvent.runExec, none)

/-- C4 counterexample: the claim says an unsupported scaler name raises a
fatal configuration error "before any data file is read".  For the
configuration with scaler `"FooScaler"` (and supported model
`"RFClassifier"`), `main` in `scripts/runner.py` does fail with the
configuration error, but its trace already contains the data-reading
steps `selection.select` and `pipeline.create_XY`, which run before
`prepare_ML`: the data files are read first. -/
theorem runner_unsupported_scaler_after_data_read :
    (runner_main ⟨"FooScaler", "RFClassifier", 3⟩).2
        = some "no supported scaling-algorithm selected - choose between MinMaxScaler, StandardScaler, RobustScaler or QuantileTransformer" ∧
    RunnerEvent.selectData ∈ (runner_main ⟨"FooScaler", "RFClassifier", 3⟩).1 ∧
    RunnerEvent.createXY ∈ (runner_main ⟨"FooScaler", "RFClassifier", 3⟩).1 := by
  refine ⟨rfl, ?_, ?_⟩ <;> decide

/-- C4 (amended): a configuration naming a scaler outside
{MinMaxScaler, StandardScaler, RobustScaler, QuantileTransformer} or a
classifier outside {NuSVC, KNeighborsClassifier, RFClassifier} makes the
pipeline fail with a fatal configuration error when `prepare_ML` runs —
before any evaluation run executes, but only after the data files have
been read and the sample matrix assembled, since `main`
(`scripts/runner.py`) calls `create_XY` before `prepare_ML`. -/
theorem runner_unsupported_config_fatal_before_runs (config : MLConfig)
    (h : config.scaler ∉ ["MinMaxScaler", "StandardScaler", "RobustScaler",
            "QuantileTransformer"] ∨
         config.model ∉ ["NuSVC", "KNeighborsClassifier", "RFClassifier"]) :
    (runner_main config).2.isSome = true ∧
    (∀ n, RunnerEvent.runExec n ∉ (runner_main config).1) ∧
    RunnerEvent.createXY ∈ (runner_main config).1 := by
  have herr : ∃ e, prepare_ML config = Except.error e := by
    rcases h with h | h
    · simp only [List.mem_cons, List.not_mem_nil, or_false, not_or] at h
      obtain ⟨h1, h2, h3, h4⟩ := h
      have hds : define_scaling config = Except.error
          "no supported scaling-algorithm selected - choose between MinMaxScaler, StandardScaler, RobustScaler or QuantileTransformer" := by
        unfold define_scaling
        rw [if_neg h1, if_neg h2, if_neg h3, if_neg h4]
      refine ⟨"no supported scaling-algorithm selected - choose between MinMaxScaler, StandardScaler, RobustScaler or QuantileTransformer", ?_⟩
      unfold prepare_ML
      rw [hds]
    · simp only [List.mem_cons, List.not_mem_nil, or_false, not_or] at h
      obtain ⟨h1, h2, h3⟩ := h
      have hdm : define_model config = Except.error
          "no supported ML model selected - choose between NuSVC, KNeighborsClassifier or RFClassifier" := by
        unfold define_model
        rw [if_neg h1, if_neg h2, if_neg h3]
      cases hs : define_scaling config with
      | error e =>
          refine ⟨e, ?_⟩
          unfold prepare_ML
          rw [hs]
      | ok s =>
          refine ⟨"no supported ML model selected - choose between NuSVC, KNeighborsClassifier or RFClassifier", ?_⟩
          unfold prepare_ML
          rw [hs, hdm]
  obtain ⟨e, he⟩ := herr
  simp only [runner_main, he]
  refine ⟨rfl, ?_, ?_⟩
  · intro n
    simp
  · simp

/-- Witness for C4 (amended): the configuration with supported scaler
`"MinMaxScaler"` but unsupported model `"SVM"`. -/
theorem runner_unsupported_config_fatal_before_runs_witness :
    (runner_main ⟨"MinMaxScaler", "SVM", 2⟩).2.isSome = true ∧
    (∀ n, RunnerEvent.runExec n ∉ (runner_main ⟨"MinMaxScaler", "SVM", 2⟩).1) ∧
    RunnerEvent.createXY ∈ (runner_main ⟨"MinMaxScaler", "SVM", 2⟩).1 :=
  runner_unsupported_config_fatal_before_runs ⟨"MinMaxScaler", "SVM", 2⟩
    (Or.inr (by decide))

/-- The `[pre_calc]` configuration section consulted by `create_XY` and
`create_X` (`copro/pipeline.py`): the `XY` entry and the `X` entry. -/
structure PreCalcConfig where
  XY : String
  X : String

/-- `os.path.join(a, b)` for the path shapes used by `copro/pipeline.py`
(a directory joined with a relative file name). -/
def path_join (a b : String) : String := a ++ "/" ++ b

/-- Modelled from the spec: the persistence sink (§6) — `np.save` /
`np.load` on `.npy` files, external to the sources — "core writes/reads a
single serialized sample matrix artifact ... and reads it back bit-for-bit
identical in column order and row content".  The file system is an
association list from paths to stored matrices; `np.save(path, m)` writes
`m` at `path + ".npy"` (numpy appends the extension). -/
def np_save (store : List (String × List (List α))) (path : String)
    (m : List (List α)) : List (String × List (List α)) :=
  (path ++ ".npy", m) :: store

/-- Modelled from the spec: `np.load(path)` returns the matrix most
recently saved at exactly `path`, if any. -/
def np_load (store : List (String × List (List α))) (path : String) :
    Option (List (List α)) :=
  (store.find? (fun f => f.1 == path)).map (fun f => f.2)

/-- The call `data.fill_XY(XY, config, root_dir, conflict_gdf, polygon_gdf)`
as written in `copro/pipeline.py` (line 28 in `create_XY`; line 63 in
`create_X` passes the same five arguments): `fill_XY` (`copro/data.py`
line 63) has six required positional parameters — the sixth, `out_dir`,
has no default — so the call raises `TypeError` unconditionally, before
any assembly work or `np.save`. -/
def fill_XY_call_pipeline (α : Type) : Except String (List (List α)) :=
  Except.error "TypeError: fill_XY() missing 1 required positional argument: out_dir"

/-- `create_XY` (`copro/pipeline.py`): if the `[pre_calc] XY` entry is
the empty string, assemble the XY sample matrix via `data.fill_XY` and
save it by default to `os.path.join(out_dir, 'XY')` — but the `fill_XY`
call at line 28 omits the required `out_dir` argument and raises
`TypeError`, so this branch always fails before `np.save`; otherwise
load the matrix from `os.path.join(root_dir, config['pre_calc']['XY'])`.
Returns the updated store and the matrix handed to `split_XY_data`. -/
def create_XY (config : PreCalcConfig) (out_dir root_dir : String)
    (store : List (String × List (List α))) :
    Except String (List (String × List (List α)) × List (List α)) :=
  if config.XY = "" then
    match fill_XY_call_pipeline α with
    | Except.error e => Except.error e
    | Except.ok XY => Except.ok (np_save store (path_join out_dir "XY") XY, XY)
  else
    Except.ok (store, (np_load store (path_join root_dir config.XY)).getD [])

/-- `create_X` (`copro/pipeline.py`): the projection-mode variant.  The
branch condition tests the `[pre_calc]` section's `XY` entry against the
empty string, yet the load path in the else-branch is built from the
`[pre_calc]` section's `X` entry; the then-branch calls `data.fill_XY`
without the required `out_dir` argument (line 63) and so raises
`TypeError` before assembling or saving anything. -/
def create_X (config : PreCalcConfig) (out_dir root_dir : String)
    (store : List (String × List (List α))) :
    Except String (List (String × List (List α)) × List (List α)) :=
  if config.XY = "" then
    match fill_XY_call_pipeline α with
    | Except.error e => Except.error e
    | Except.ok X => Except.ok (np_save store (path_join out_dir "X") X, X)
  else
    Except.ok (store, (np_load store (path_join root_dir config.X)).getD [])

/-- C9 (code bug): the claim — like spec §6's persistence contract and
`create_XY`'s own docstring ("The resulting array is by default saved as
npy-format to file") — says an assembling run serializes the sample
matrix so a rerun can reload the identical matrix.  The code cannot do
this: with an empty `[pre_calc] XY` entry, `create_XY`
(`copro/pipeline.py` line 28) calls `data.fill_XY` without the required
`out_dir` argument, an unconditional `TypeError` raised before `np.save`,
so no run ever assembles and serializes the matrix that a reuse run
could load. -/
theorem create_XY_assembling_run_crashes (config : PreCalcConfig)
    (out_dir root_dir : String) (store : List (String × List (List α)))
    (h : config.XY = "") :
    create_XY config out_dir root_dir store
      = Except.error
          "TypeError: fill_XY() missing 1 required positional argument: out_dir" := by
  unfold create_XY
  rw [if_pos h]
  rfl

/-- Witness for C9: a run with an empty `[pre_calc] XY` entry and an
empty store crashes before saving anything. -/
theorem create_XY_assembling_run_crashes_witness :
    create_XY ⟨"", ""⟩ "out" "root" ([] : List (String × List (List Int)))
      = Except.error
          "TypeError: fill_XY() missing 1 required positional argument: out_dir" :=
  create_XY_assembling_run_crashes ⟨"", ""⟩ "out" "root" [] rfl

/-- C10 counterexample: the claim says a fresh X matrix is assembled
exactly when the `[pre_calc] XY` entry is empty.  With `XY = ""` (and
`X = "other.npy"`), `create_X` assembles nothing: the `data.fill_XY`
call at `copro/pipeline.py` line 63 omits the required `out_dir`
argument, so the branch fails with `TypeError` before assembling or
saving. -/
theorem create_X_empty_XY_does_not_assemble :
    create_X ⟨"", "other.npy"⟩ "out" "root"
        ([] : List (String × List (List Int)))
      = Except.error
          "TypeError: fill_XY() missing 1 required positional argument: out_dir" := rfl

/-- C10 (amended): `create_X` (`copro/pipeline.py`) decides whether to
reuse a precomputed matrix by testing the `[pre_calc]` section's `XY`
entry against the empty string, yet when reusing it loads the file named
by the `[pre_calc]` section's `X` entry; the assembly branch is taken
exactly when the `XY` entry — not the `X` entry — is empty, but that
branch always fails with `TypeError` before assembling or saving,
because the `fill_XY` call omits the required `out_dir` argument. -/
theorem create_X_decides_on_XY_loads_X (config : PreCalcConfig)
    (out_dir root_dir : String) (store : List (String × List (List α))) :
    (config.XY = "" →
      create_X config out_dir root_dir store
        = Except.error
            "TypeError: fill_XY() missing 1 required positional argument: out_dir") ∧
    (config.XY ≠ "" →
      create_X config out_dir root_dir store
        = Except.ok (store, (np_load store (path_join root_dir config.X)).getD [])) := by
  constructor
  · intro h
    unfold create_X
    rw [if_pos h]
    rfl
  · intro h
    unfold create_X
    rw [if_neg h]

/-- Witness for C10: with `XY = "pre.npy"` nonempty and `X = "other.npy"`,
`create_X` loads `root/other.npy` even though the decision was made on
the `XY` entry; with `XY = ""` it crashes in the assembly branch
regardless of `X`. -/
theorem create_X_decides_on_XY_loads_X_witness :
    create_X ⟨"pre.npy", "other.npy"⟩ "out" "root"
        ([("root/other.npy", [[5]])] : List (String × List (List Int)))
      = Except.ok ([("root/other.npy", [[5]])],
          (np_load [("root/other.npy", [[5]])]
            (path_join "root" "other.npy")).getD []) ∧
    create_X ⟨"", "zzz.npy"⟩ "o" "r" ([] : List (String × List (List Int)))
      = Except.error
          "TypeError: fill_XY() missing 1 required positional argument: out_dir" :=
  ⟨(create_X_decides_on_XY_loads_X ⟨"pre.npy", "other.npy"⟩ "out" "root"
      [("root/other.npy", [[5]])]).2 (by decide),
   (create_X_decides_on_XY_loads_X ⟨"", "zzz.npy"⟩ "o" "r" []).1 rfl⟩
